import Mathlib

/-!
Verification of the stock-data aggregation core of the Dumberg dashboard
(files dumbergapi.py and dumberg.py).

The external market-data provider (yfinance) is modelled as a record of
query functions (`MarketSource`); prices are modelled as rationals and
pandas NaN entries as `Option.none`.  The ticker registry
(`DumbergAPI.company_dict`, a Python dict from display name to symbol) is
modelled as an association list with unique keys.
-/

namespace Dumberg

/-- One trading session of the historical series: its calendar position and
closing price.  Only year, month and close are relevant to the derived
metrics (quarter grouping and percent changes). -/
structure Session where
  year : Nat
  month : Nat
  close : ℚ
deriving DecidableEq, Repr

/-- Model of the external market data source (yfinance).
`daily t` is `fetch_stock_data`'s one-day history for ticker `t`:
`some (close, open)` when the frame is non-empty, `none` when empty.
`history t` is the one-year daily history (chronological order).
`marketCap t` and `longName t` are the optional fields of `stock.info`.
`sp500` is the frame downloaded for the candlestick chart. -/
structure MarketSource where
  daily : String → Option (ℚ × ℚ)
  history : String → List Session
  marketCap : String → Option ℚ
  longName : String → Option String
  sp500 : List Session

/-- The ticker registry: display name to ticker symbol, keys unique. -/
abbrev Registry := List (String × String)

/-- The initial `company_dict` built in `DumbergAPI.__init__`. -/
def defaultCompanyDict : Registry :=
  [("Apple Inc.", "AAPL"),
   ("Microsoft Corp.", "MSFT"),
   ("Alphabet Inc. (Google)", "GOOGL"),
   ("Amazon.com Inc.", "AMZN"),
   ("NVIDIA Corporation", "NVDA"),
   ("Tesla Inc.", "TSLA"),
   ("Berkshire Hathaway Inc.", "BRK-B"),
   ("Meta Platforms Inc. (Facebook)", "META"),
   ("Taiwan Semiconductor Manufacturing Company", "TSM"),
   ("Johnson & Johnson", "JNJ")]

/-- `self.company_dict.get(company, company)` — the identifier-to-ticker
lookup of `create_stock_dataframe`: the registered symbol when the
identifier is a known display name, the identifier itself otherwise. -/
def resolve (reg : Registry) (id : String) : String :=
  (reg.lookup id).getD id

/-- `DumbergAPI.fetch_stock_data`: the `(Close, Open)` pair of the most
recent session, or an absent pair when the one-day history is empty. -/
def fetch_stock_data (src : MarketSource) (ticker : String) : Option (ℚ × ℚ) :=
  src.daily ticker

/-- One row of the DataFrame built by `create_stock_dataframe`. -/
structure StockRow where
  company : String
  ticker : String
  currentPrice : ℚ
  openingPrice : ℚ
  priceChange : ℚ
deriving DecidableEq, Repr

/-- The loop body of `create_stock_dataframe`: resolve the identifier,
fetch the price pair, and build a row with
`priceChange = current - opening`, or nothing when the fetch returned the
absent pair. -/
def stockRowOf (src : MarketSource) (reg : Registry) (company : String) :
    Option StockRow :=
  match fetch_stock_data src (resolve reg company) with
  | some (c, o) => some ⟨company, resolve reg company, c, o, c - o⟩
  | none => none

/-- `DumbergAPI.create_stock_dataframe`: when the selection is empty the
registry's keys are used; each identifier goes through the loop body, and
identifiers whose fetch returned the absent pair are skipped. -/
def create_stock_dataframe (src : MarketSource) (reg : Registry)
    (tickers : List String) : List StockRow :=
  let ts := if tickers.isEmpty then reg.map Prod.fst else tickers
  ts.filterMap (stockRowOf src reg)

/-- The per-row classification of `create_stock_table`:
`'Up' if row['Current Price'] > row['Opening Price'] else 'Down'`. -/
def create_stock_table_status (row : StockRow) : String :=
  if row.currentPrice > row.openingPrice then "Up" else "Down"

/-- The table cells of `create_stock_table`: ticker and status per row
(the dollar string formatting of the price is presentation only and is
not modelled). -/
def create_stock_table (rows : List StockRow) : List (String × String) :=
  rows.map fun r => (r.ticker, create_stock_table_status r)

/-- The market-cap loop of `plot_donut_chart`:
`stock.info.get('marketCap', 0) / 1e9` for each ticker, in order. -/
def fetchMarketCaps (src : MarketSource) (tickers : List String) : List ℚ :=
  tickers.map fun t => (src.marketCap t).getD 0 / 1000000000

/-- The list comprehension `[self.company_dict[company] for company in
selected_companies]`: Python raises `KeyError` on a missing key, modelled
as `none`. -/
def lookupAll (reg : Registry) : List String → Option (List String)
  | [] => some []
  | c :: cs =>
    match reg.lookup c with
    | none => none
    | some t => (lookupAll reg cs).map fun ts => t :: ts

/-- `DumbergAPI.plot_donut_chart`: resolves every selected company through
`company_dict[...]` (a `KeyError`, i.e. `none`, on an unknown name), then
pairs the tickers with their market caps in billions. -/
def plot_donut_chart (src : MarketSource) (reg : Registry)
    (selected : List String) : Option (List String × List ℚ) :=
  (lookupAll reg selected).map fun tickers => (tickers, fetchMarketCaps src tickers)

/-- `pandas.Series.pct_change` continued after the first element:
each value divided by its predecessor, minus one. -/
def pctChangeFrom (prev : ℚ) : List ℚ → List (Option ℚ)
  | [] => []
  | x :: xs => some (x / prev - 1) :: pctChangeFrom x xs

/-- `pandas.Series.pct_change`: the first element has no predecessor and
is NaN (`none`); every later element is `x / prev - 1`. -/
def pctChange : List ℚ → List (Option ℚ)
  | [] => []
  | x :: xs => none :: pctChangeFrom x xs

/-- `pandas.Series.cumsum` with its default `skipna=True`: NaN entries
stay NaN and are skipped by the running sum. -/
def cumsumFrom (acc : ℚ) : List (Option ℚ) → List (Option ℚ)
  | [] => []
  | none :: xs => none :: cumsumFrom acc xs
  | some x :: xs => some (acc + x) :: cumsumFrom (acc + x) xs

/-- The Returns column of `plot_performance_chart`:
`data['Close'].pct_change().cumsum() * 100`. -/
def computeReturnSeries (closes : List ℚ) : List (Option ℚ) :=
  (cumsumFrom 0 (pctChange closes)).map (Option.map fun r => r * 100)

/-- `DumbergAPI.plot_performance_chart`: the cumulative-return series of
the ticker's one-year close prices (the empty history yields the empty
figure, i.e. the empty series). -/
def plot_performance_chart (src : MarketSource) (ticker : String) :
    List (Option ℚ) :=
  computeReturnSeries ((src.history ticker).map Session.close)

/-- The calendar quarter (1..4) of a month (1..12). -/
def quarterOf (month : Nat) : Nat := (month - 1) / 3 + 1

/-- The quarter a session falls in: its year and quarter number. -/
def quarterKey (s : Session) : Nat × Nat := (s.year, quarterOf s.month)

/-- `data['Close'].resample('Q').last()` on a chronologically ordered
history: one entry per calendar quarter, carrying the last close of the
quarter. -/
def resampleQLast : List Session → List ((Nat × Nat) × ℚ)
  | [] => []
  | s :: rest =>
    match resampleQLast rest with
    | [] => [(quarterKey s, s.close)]
    | (k, c) :: t =>
      if quarterKey s = k then (k, c) :: t
      else (quarterKey s, s.close) :: (k, c) :: t

/-- `quarterly_data.pct_change() * 100`. -/
def pctChange100 (vs : List ℚ) : List (Option ℚ) :=
  (pctChange vs).map (Option.map fun r => r * 100)

/-- The `'%Y-Q%q'` label of a quarter: four-digit year, hyphen, `Q`, and
the quarter number. -/
def quarterLabel (k : Nat × Nat) : String :=
  toString k.1 ++ "-Q" ++ toString k.2

/-- `DumbergAPI.plot_waterfall_chart`: the `(x, y)` data of the waterfall
trace, paired pointwise as the chart draws them.  `x` is
`quarterly_changes.index.strftime('%Y-Q%q')` — the labels of ALL
quarters, the first included — while `y` is `quarterly_changes.dropna()`
— the changes with the leading NaN removed; the chart pairs them
positionally, so the series of drawn points is their zip. -/
def plot_waterfall_chart (src : MarketSource) (ticker : String) :
    List (String × ℚ) :=
  let qd := resampleQLast (src.history ticker)
  let changes := pctChange100 (qd.map Prod.snd)
  List.zip (qd.map fun e => quarterLabel e.1) (changes.filterMap id)

/-- `DumbergAPI.plot_candlestick`: the downloaded S&P 500 frame is handed
to the chart unchanged. -/
def plot_candlestick (src : MarketSource) : List Session :=
  src.sp500

/-- The outcome of the `add_ticker` handler of dumberg.py: a registration,
the `InvalidTicker` error notification, or silently doing nothing (empty
input or already-registered symbol). -/
inductive AddOutcome where
  | added (name : String)
  | invalidTicker
  | noop
deriving DecidableEq, Repr

/-- Python `str.upper()`: upper-case every character (written over the
underlying character list so that it evaluates by kernel reduction). -/
def upper (s : String) : String := ⟨s.data.map Char.toUpper⟩

/-- Python dict assignment `d[key] = val`: overwrite an existing key,
append a new one. -/
def dictInsert (reg : Registry) (key val : String) : Registry :=
  if (reg.lookup key).isSome then
    reg.map fun p => if p.1 = key then (key, val) else p
  else reg ++ [(key, val)]

/-- The `add_ticker` handler of dumberg.py: upper-case the input; if it is
non-empty and not already a registered symbol, query the profile; insert
`{longName → symbol}` when a long name is present, otherwise report the
invalid-ticker error and leave the registry alone. -/
def add_ticker (src : MarketSource) (reg : Registry) (input : String) :
    Registry × AddOutcome :=
  let t := upper input
  if t ≠ "" ∧ t ∉ reg.map Prod.snd then
    match src.longName t with
    | some name => (dictInsert reg name t, .added name)
    | none => (reg, .invalidTicker)
  else (reg, .noop)

/-- The `update_performance_tabs` callback of dumberg.py: for each
selected name, `company_dict[name]` (a `KeyError`, i.e. `none`, on an
unknown name), then one tab holding the performance and waterfall data. -/
def update_performance_tabs (src : MarketSource) (reg : Registry) :
    List String → Option (List (String × List (Option ℚ) × List (String × ℚ)))
  | [] => some []
  | name :: rest =>
    match reg.lookup name with
    | none => none
    | some t =>
      (update_performance_tabs src reg rest).map
        fun tabs => (name, plot_performance_chart src t, plot_waterfall_chart src t) :: tabs

/-- The mutable state of a `DumbergAPI` instance: its `company_dict`. -/
structure DumbergAPIState where
  company_dict : Registry
deriving DecidableEq, Repr

/-- `fetch_stock_data` as a method: its body never assigns to
`self.company_dict`. -/
def fetch_stock_data_st (src : MarketSource) (s : DumbergAPIState)
    (ticker : String) : Option (ℚ × ℚ) × DumbergAPIState :=
  (fetch_stock_data src ticker, s)

/-- `create_stock_dataframe` as a method: reads `self.company_dict`,
never assigns to it. -/
def create_stock_dataframe_st (src : MarketSource) (s : DumbergAPIState)
    (tickers : List String) : List StockRow × DumbergAPIState :=
  (create_stock_dataframe src s.company_dict tickers, s)

/-- `create_stock_table` as a method: touches no instance state. -/
def create_stock_table_st (s : DumbergAPIState) (rows : List StockRow) :
    List (String × String) × DumbergAPIState :=
  (create_stock_table rows, s)

/-- `plot_donut_chart` as a method: reads `self.company_dict`, never
assigns to it. -/
def plot_donut_chart_st (src : MarketSource) (s : DumbergAPIState)
    (selected : List String) :
    Option (List String × List ℚ) × DumbergAPIState :=
  (plot_donut_chart src s.company_dict selected, s)

/-- `plot_performance_chart` as a method: touches no instance state. -/
def plot_performance_chart_st (src : MarketSource) (s : DumbergAPIState)
    (ticker : String) : List (Option ℚ) × DumbergAPIState :=
  (plot_performance_chart src ticker, s)

/-- `plot_waterfall_chart` as a method: touches no instance state. -/
def plot_waterfall_chart_st (src : MarketSource) (s : DumbergAPIState)
    (ticker : String) : List (String × ℚ) × DumbergAPIState :=
  (plot_waterfall_chart src ticker, s)

/-- `plot_candlestick` as a method: touches no instance state. -/
def plot_candlestick_st (src : MarketSource) (s : DumbergAPIState) :
    List Session × DumbergAPIState :=
  (plot_candlestick src, s)

/-- `add_ticker` as the one mutating operation: it may replace
`company_dict`. -/
def add_ticker_st (src : MarketSource) (s : DumbergAPIState)
    (input : String) : AddOutcome × DumbergAPIState :=
  let r := add_ticker src s.company_dict input
  (r.2, ⟨r.1⟩)

/-- A source that answers every query with the given one-year history and
nothing else; used to evaluate the chart pipelines on concrete data. -/
def srcOfHistory (h : List Session) : MarketSource :=
  { daily := fun _ => none
    history := fun _ => h
    marketCap := fun _ => none
    longName := fun _ => none
    sp500 := [] }

/-- A source whose one-day history answers only the ticker AAPL, with
close 12 and open 10; used to evaluate the record builder concretely. -/
def aaplSrc : MarketSource :=
  { daily := fun t => if t = "AAPL" then some (12, 10) else none
    history := fun _ => []
    marketCap := fun _ => none
    longName := fun _ => none
    sp500 := [] }

/-- A source reporting a market cap only for the ticker B; used to
evaluate the market-cap loop concretely. -/
def capSrc : MarketSource :=
  { daily := fun _ => none
    history := fun _ => []
    marketCap := fun t => if t = "B" then some 2000000000 else none
    longName := fun _ => none
    sp500 := [] }

/-- The length of a `filterMap` is the count of elements on which the
function succeeds. -/
theorem length_filterMap_eq_countP {α β : Type} (f : α → Option β)
    (p : α → Bool) (hf : ∀ a, (f a).isSome = p a) (l : List α) :
    (l.filterMap f).length = l.countP p := by
  induction l with
  | nil => rfl
  | cons a t ih =>
    rw [List.filterMap_cons, List.countP_cons, ← hf a]
    cases hfa : f a <;> simp [hfa, ih]

/-- The loop body succeeds exactly when the fetch of the resolved ticker
returns a present pair. -/
theorem isSome_stockRowOf (src : MarketSource) (reg : Registry)
    (c : String) :
    (stockRowOf src reg c).isSome = (fetch_stock_data src (resolve reg c)).isSome := by
  unfold stockRowOf
  cases h : fetch_stock_data src (resolve reg c) with
  | none => simp [h]
  | some p => obtain ⟨x, y⟩ := p; simp [h]

/-- Claim C1 counterexample: on the fabricated history with closes
[100, 110, 121] the cumulative percentage after session 3 is not 21.0. -/
theorem computeReturnSeries_cumulative_ne_21 :
    (computeReturnSeries [100, 110, 121]).getLast? ≠ some (some 21) := by
  have h : computeReturnSeries [100, 110, 121] = [none, some 10, some 20] := by
    norm_num [computeReturnSeries, pctChange, pctChangeFrom, cumsumFrom]
  rw [h, show ([none, some (10 : ℚ), some 20] : List (Option ℚ)).getLast?
      = some (some 20) from rfl]
  intro hc
  rw [Option.some.injEq, Option.some.injEq] at hc
  norm_num at hc

/-- Claim C1 (amended): on the fabricated history with closes
[100, 110, 121] the cumulative percentage after session 3 equals
((110/100 - 1) + (121/110 - 1)) * 100, which is 20.0. -/
theorem computeReturnSeries_cumulative_20 :
    (computeReturnSeries [100, 110, 121]).getLast?
      = some (some ((110 / 100 - 1 + (121 / 110 - 1)) * 100)) ∧
    (110 / 100 - 1 + (121 / 110 - 1)) * 100 = (20 : ℚ) := by
  have h : computeReturnSeries [100, 110, 121] = [none, some 10, some 20] := by
    norm_num [computeReturnSeries, pctChange, pctChangeFrom, cumsumFrom]
  constructor
  · rw [h, show ([none, some (10 : ℚ), some 20] : List (Option ℚ)).getLast?
        = some (some 20) from rfl]
    norm_num
  · norm_num

/-- Claim C2: every row produced by `create_stock_dataframe` has
`priceChange = currentPrice - openingPrice`, and `create_stock_table`
classifies it Up exactly when the change is strictly positive. -/
theorem create_stock_dataframe_delta_status :
    ∀ (src : MarketSource) (reg : Registry) (ids : List String)
      (r : StockRow), r ∈ create_stock_dataframe src reg ids →
      r.priceChange = r.currentPrice - r.openingPrice ∧
      (create_stock_table_status r = "Up" ↔ 0 < r.priceChange) := by
  intro src reg ids r hr
  unfold create_stock_dataframe at hr
  rw [List.mem_filterMap] at hr
  obtain ⟨a, ha, hfa⟩ := hr
  unfold stockRowOf at hfa
  cases hd : fetch_stock_data src (resolve reg a) with
  | none =>
    rw [hd] at hfa
    exact Option.noConfusion hfa
  | some p =>
    obtain ⟨c, o⟩ := p
    rw [hd] at hfa
    have heq := Option.some.inj hfa
    cases heq
    refine ⟨rfl, ?_⟩
    unfold create_stock_table_status
    by_cases hlt : (o : ℚ) < c
    · rw [if_pos hlt]
      simp only [true_iff]
      exact sub_pos.mpr hlt
    · rw [if_neg hlt]
      constructor
      · intro hdu; exact absurd hdu (by decide)
      · intro hpos; exact absurd (sub_pos.mp hpos) hlt

/-- Witness for claim C2 at the row built from the default registry for
the selection [Apple Inc.] against a source quoting close 12, open 10. -/
theorem create_stock_dataframe_delta_status_witness :
    (⟨"Apple Inc.", "AAPL", 12, 10, 2⟩ : StockRow).priceChange
      = (⟨"Apple Inc.", "AAPL", 12, 10, 2⟩ : StockRow).currentPrice
        - (⟨"Apple Inc.", "AAPL", 12, 10, 2⟩ : StockRow).openingPrice ∧
    (create_stock_table_status ⟨"Apple Inc.", "AAPL", 12, 10, 2⟩ = "Up" ↔
      0 < (⟨"Apple Inc.", "AAPL", 12, 10, 2⟩ : StockRow).priceChange) :=
  create_stock_dataframe_delta_status aaplSrc defaultCompanyDict
    ["Apple Inc."] ⟨"Apple Inc.", "AAPL", 12, 10, 2⟩ (by
      have h : create_stock_dataframe aaplSrc defaultCompanyDict ["Apple Inc."]
          = [⟨"Apple Inc.", "AAPL", 12, 10, 2⟩] := by
        norm_num [create_stock_dataframe, stockRowOf, resolve, fetch_stock_data,
          aaplSrc, defaultCompanyDict, List.lookup, List.filterMap_cons,
          List.filterMap_nil]
      rw [h]
      exact List.mem_singleton.mpr rfl)

/-- Claim C3: with the empty selection, `create_stock_dataframe`
processes every registered company — it behaves exactly as if called on
the registry's full key list, and returns one record per registered
company whose fetch succeeded. -/
theorem create_stock_dataframe_empty_selection :
    ∀ (src : MarketSource) (reg : Registry),
      create_stock_dataframe src reg []
        = create_stock_dataframe src reg (reg.map Prod.fst) ∧
      (create_stock_dataframe src reg []).length
        = (reg.map Prod.fst).countP
            (fun c => (fetch_stock_data src (resolve reg c)).isSome) := by
  intro src reg
  have hkeys : create_stock_dataframe src reg []
      = (reg.map Prod.fst).filterMap (stockRowOf src reg) := rfl
  constructor
  · rw [hkeys]
    unfold create_stock_dataframe
    by_cases h : (reg.map Prod.fst).isEmpty
    · rw [if_pos h, List.isEmpty_iff.mp h]
    · rw [if_neg h]
  · rw [hkeys]
    exact length_filterMap_eq_countP _ _ (isSome_stockRowOf src reg) _

/-- Claim C4: registering a symbol whose profile has no long name — when
the symbol is non-empty and not already registered, so the profile is
actually queried — reports the invalid-ticker error and returns the
registry exactly as it was. -/
theorem add_ticker_no_longName :
    ∀ (src : MarketSource) (reg : Registry) (input : String),
      upper input ≠ "" → upper input ∉ reg.map Prod.snd →
      src.longName (upper input) = none →
      add_ticker src reg input = (reg, AddOutcome.invalidTicker) := by
  intro src reg input h1 h2 h3
  unfold add_ticker
  rw [if_pos (And.intro h1 h2), h3]

/-- Witness for claim C4: registering ZZZZINVALID against a source with
no profile leaves the default registry untouched. -/
theorem add_ticker_no_longName_witness :
    add_ticker (srcOfHistory []) defaultCompanyDict "ZZZZINVALID"
      = (defaultCompanyDict, AddOutcome.invalidTicker) :=
  add_ticker_no_longName (srcOfHistory []) defaultCompanyDict "ZZZZINVALID"
    (by decide) (by decide) rfl

/-- Claim C5: the market-cap loop of `plot_donut_chart` produces exactly
one sample per input ticker, in input order, each being the raw market
cap divided by 1e9, with a missing market-cap field mapped to 0. -/
theorem fetchMarketCaps_spec :
    ∀ (src : MarketSource) (ts : List String),
      (fetchMarketCaps src ts).length = ts.length ∧
      ∀ (i : Nat) (t : String), ts[i]? = some t →
        (fetchMarketCaps src ts)[i]?
          = some ((src.marketCap t).getD 0 / 1000000000) ∧
        (src.marketCap t = none → (fetchMarketCaps src ts)[i]? = some 0) := by
  intro src ts
  constructor
  · simp [fetchMarketCaps]
  · intro i t ht
    have h1 : (fetchMarketCaps src ts)[i]?
        = some ((src.marketCap t).getD 0 / 1000000000) := by
      unfold fetchMarketCaps
      rw [List.getElem?_map, ht]
      rfl
    refine ⟨h1, fun hn => ?_⟩
    rw [h1, hn]
    norm_num

/-- Witness for claim C5 on the tickers [A, B] against a source with no
market cap for A: the output has length 2 and A is mapped to 0. -/
theorem fetchMarketCaps_spec_witness :
    (fetchMarketCaps capSrc ["A", "B"]).length = ["A", "B"].length ∧
    (fetchMarketCaps capSrc ["A", "B"])[0]? = some 0 :=
  ⟨(fetchMarketCaps_spec capSrc ["A", "B"]).1,
   ((fetchMarketCaps_spec capSrc ["A", "B"]).2 0 "A" rfl).2 (by
      show (if "A" = "B" then some (2000000000 : ℚ) else none) = none
      rw [if_neg (by decide)])⟩

/-- Claim C6 (code evaluation): on a two-quarter history (last closes 100
and 110) the waterfall trace pairs the first quarter's label with the
second quarter's change — the leading quarter's label is NOT dropped:
`x` keeps every quarter label while `y` drops only the leading NaN. -/
theorem plot_waterfall_chart_keeps_first_quarter_label :
    plot_waterfall_chart (srcOfHistory [⟨2023, 2, 100⟩, ⟨2023, 5, 110⟩]) "TKR"
      = [("2023-Q1", 10)] ∧
    quarterLabel (quarterKey ⟨2023, 2, 100⟩) = "2023-Q1" := by
  constructor
  · show List.zip ["2023-Q1", "2023-Q2"]
        ((pctChange100 [100, 110]).filterMap id) = [("2023-Q1", 10)]
    have h : pctChange100 [100, 110] = [none, some 10] := by
      norm_num [pctChange100, pctChange, pctChangeFrom]
    rw [h]
    rfl
  · rfl

/-- Claim C7 (code evaluation): on a three-quarter history (last closes
100, 110, 132) the emitted points are labeled one quarter early: the
change of quarter 2 (+10%) carries the label 2023-Q1 and the change of
quarter 3 (+20%) carries the label 2023-Q2. -/
theorem plot_waterfall_chart_misaligned_labels :
    plot_waterfall_chart
        (srcOfHistory [⟨2023, 2, 100⟩, ⟨2023, 5, 110⟩, ⟨2023, 8, 132⟩]) "TKR"
      = [("2023-Q1", 10), ("2023-Q2", 20)] ∧
    pctChange100 [100, 110, 132] = [none, some 10, some 20] := by
  have h : pctChange100 [100, 110, 132] = [none, some 10, some 20] := by
    norm_num [pctChange100, pctChange, pctChangeFrom]
  refine ⟨?_, h⟩
  show List.zip ["2023-Q1", "2023-Q2", "2023-Q3"]
      ((pctChange100 [100, 110, 132]).filterMap id)
    = [("2023-Q1", 10), ("2023-Q2", 20)]
  rw [h]
  rfl

/-- Claim C8: `resolve` maps a registered display name to its symbol and
passes any other identifier through unchanged; hence resolving an
already-resolved symbol that is not itself a display-name key returns it
unchanged. -/
theorem resolve_spec :
    ∀ (reg : Registry) (id : String),
      (∀ sym, reg.lookup id = some sym → resolve reg id = sym) ∧
      (reg.lookup id = none → resolve reg id = id) ∧
      (reg.lookup (resolve reg id) = none →
        resolve reg (resolve reg id) = resolve reg id) := by
  intro reg id
  refine ⟨fun sym h => ?_, fun h => ?_, fun h => ?_⟩
  · unfold resolve
    rw [h]
    rfl
  · unfold resolve
    rw [h]
    rfl
  · show (reg.lookup (resolve reg id)).getD (resolve reg id) = resolve reg id
    rw [h]
    rfl

/-- Witness for claim C8 on the default registry: a display name resolves
to its symbol, and the symbol AAPL (not a display name) resolves to
itself, idempotently. -/
theorem resolve_spec_witness :
    resolve defaultCompanyDict "Apple Inc." = "AAPL" ∧
    resolve defaultCompanyDict "AAPL" = "AAPL" ∧
    resolve defaultCompanyDict (resolve defaultCompanyDict "AAPL")
      = resolve defaultCompanyDict "AAPL" :=
  ⟨(resolve_spec defaultCompanyDict "Apple Inc.").1 "AAPL" (by decide),
   (resolve_spec defaultCompanyDict "AAPL").2.1 (by decide),
   (resolve_spec defaultCompanyDict "AAPL").2.2 (by decide)⟩

/-- Claim C9 counterexample: selecting an identifier that is not a key of
the registry makes both the donut chart and the performance tabs fail
with a `KeyError` (`none`), so not every input completes without an
exception. -/
theorem donut_and_tabs_crash_on_unknown_key :
    plot_donut_chart (srcOfHistory []) defaultCompanyDict ["NOTAKEY"] = none ∧
    update_performance_tabs (srcOfHistory []) defaultCompanyDict ["NOTAKEY"]
      = none := by
  constructor
  · rfl
  · rfl

/-- `lookupAll` succeeds when every queried name is a key. -/
theorem lookupAll_isSome (reg : Registry) :
    ∀ sel : List String, (∀ c ∈ sel, (reg.lookup c).isSome) →
      (lookupAll reg sel).isSome := by
  intro sel
  induction sel with
  | nil => intro _; rfl
  | cons c cs ih =>
    intro h
    obtain ⟨t, ht⟩ := Option.isSome_iff_exists.mp (h c (List.mem_cons_self c cs))
    obtain ⟨ts, hts⟩ :=
      Option.isSome_iff_exists.mp (ih fun x hx => h x (List.mem_cons_of_mem c hx))
    simp [lookupAll, ht, hts]

/-- `update_performance_tabs` succeeds when every selected name is a key. -/
theorem update_performance_tabs_isSome (src : MarketSource) (reg : Registry) :
    ∀ sel : List String, (∀ c ∈ sel, (reg.lookup c).isSome) →
      (update_performance_tabs src reg sel).isSome := by
  intro sel
  induction sel with
  | nil => intro _; rfl
  | cons c cs ih =>
    intro h
    obtain ⟨t, ht⟩ := Option.isSome_iff_exists.mp (h c (List.mem_cons_self c cs))
    obtain ⟨ts, hts⟩ :=
      Option.isSome_iff_exists.mp (ih fun x hx => h x (List.mem_cons_of_mem c hx))
    simp [update_performance_tabs, ht, hts]

/-- Claim C9 (amended): building stock records is total for every
selection, and the donut chart and performance tabs complete without an
exception whenever every selected identifier is a key of the registry;
failed fetches only shrink the record list, never abort it. -/
theorem aggregation_nonfatal_on_registered :
    ∀ (src : MarketSource) (reg : Registry) (selected : List String),
      (∀ c ∈ selected, (reg.lookup c).isSome) →
      (plot_donut_chart src reg selected).isSome ∧
      (update_performance_tabs src reg selected).isSome ∧
      (selected.isEmpty = false →
        (create_stock_dataframe src reg selected).length ≤ selected.length) := by
  intro src reg selected h
  refine ⟨?_, ?_, ?_⟩
  · unfold plot_donut_chart
    rw [Option.isSome_map']
    exact lookupAll_isSome reg selected h
  · exact update_performance_tabs_isSome src reg selected h
  · intro hne
    have hsel : create_stock_dataframe src reg selected
        = selected.filterMap (stockRowOf src reg) := by
      unfold create_stock_dataframe
      rw [if_neg (by simp [hne])]
    rw [hsel]
    exact List.length_filterMap_le _ _

/-- Witness for the amended claim C9: the selection [Apple Inc.] consists
of registry keys, so the donut chart and the performance tabs both
complete, and the record list is no longer than the selection. -/
theorem aggregation_nonfatal_witness :
    (plot_donut_chart (srcOfHistory []) defaultCompanyDict
      ["Apple Inc."]).isSome ∧
    (update_performance_tabs (srcOfHistory []) defaultCompanyDict
      ["Apple Inc."]).isSome ∧
    ((["Apple Inc."] : List String).isEmpty = false →
      (create_stock_dataframe (srcOfHistory []) defaultCompanyDict
        ["Apple Inc."]).length ≤ (["Apple Inc."] : List String).length) :=
  aggregation_nonfatal_on_registered (srcOfHistory []) defaultCompanyDict
    ["Apple Inc."] (by decide)

/-- Claim C10: every read-only operation of the aggregation core returns
the instance state with `company_dict` exactly as it was; only
`add_ticker` ever builds a new registry. -/
theorem company_dict_frame :
    ∀ (src : MarketSource) (s : DumbergAPIState) (t u v : String)
      (ids : List String) (rows : List StockRow) (sel : List String),
      (fetch_stock_data_st src s t).2 = s ∧
      (create_stock_dataframe_st src s ids).2 = s ∧
      (create_stock_table_st s rows).2 = s ∧
      (plot_donut_chart_st src s sel).2 = s ∧
      (plot_performance_chart_st src s u).2 = s ∧
      (plot_waterfall_chart_st src s v).2 = s ∧
      (plot_candlestick_st src s).2 = s := by
  intro src s t u v ids rows sel
  exact ⟨rfl, rfl, rfl, rfl, rfl, rfl, rfl⟩

end Dumberg
